import Mathlib

/-!
Verification of the node-connection and session-orchestration layer
(`src/lib/Player.ts` and the Node/Connection class) against its
natural-language specification.

The TypeScript classes are shallowly embedded: each method becomes a pure
Lean function from the receiver state (plus explicit inputs such as the
ambient wall clock or a freshly created transport handle) to the updated
state together with its observable effects (emitted events, transport
writes, scheduled reconnects).  JavaScript `null`/`undefined` fields are
modelled with `Option`; JavaScript numbers holding integral quantities
(positions, timestamps, retry counters) are modelled with `Int`/`Nat`.
-/

/-- Connection state of a `Node` (the enum `State` in the Node module:
CONNECTING, CONNECTED, DISCONNECTED). -/
inductive NodeState
  | CONNECTING
  | CONNECTED
  | DISCONNECTED
deriving DecidableEq, Repr

/-- Modelled from the spec: the last-reported load statistics of a Node
(`last-known load statistics (at minimum: active-session count)`).  The
Node class fragment in scope does not declare the field, but session
creation reads `node.stats.players`, so the record carries the
active-player count. -/
structure NodeStats where
  players : Nat
deriving DecidableEq, Repr

/-- Configuration surface of a Node (`NodeOptions`): identity, address,
credentials and retry policy.  Absent optional entries are `none`. -/
structure NodeOptions where
  id : Option String
  hostname : String
  port : Nat
  secure : Option Bool
  password : String
  resumeKey : Option String
  resumeTimeout : Option Nat
  maxRetryAttempts : Option Nat
  retryAttemptsInterval : Option Nat
deriving DecidableEq, Repr

/-- A transport handle (`WebSocket`).  Only the fields the embedded code
inspects are kept: `readyState`, the per-instance connection state. -/
structure WS where
  readyState : Nat
deriving DecidableEq, Repr

/-- The class constant `WebSocket.OPEN` (numeric value 1): the
`readyState` value of an open socket.  As a class constant it is present,
with the same value, on every instance. -/
def WS.OPEN : Nat := 1

/-- One Node (the per-node Connection): retry counter, connection state,
owned transport handle (`null` when absent), the internal `resumed` flag
(`undefined` until the upgrade handler sets it), configuration and
last-known load statistics. -/
structure Node where
  retryAttempts : Int
  state : NodeState
  ws : Option WS
  resumed : Option Bool
  options : NodeOptions
  stats : NodeStats
deriving DecidableEq, Repr

/-- The Node constructor: `retryAttempts = -1`, state DISCONNECTED, no
transport handle.  The load statistics start at zero active players. -/
def newNode (opts : NodeOptions) : Node :=
  { retryAttempts := -1
    state := NodeState.DISCONNECTED
    ws := none
    resumed := none
    options := opts
    stats := { players := 0 } }

/-- Wire payloads sent through `Node.send` (the outbound control ops of
the wire protocol). -/
inductive Payload
  | destroy (guildId : String)
  | play (guildId : String) (track : Option String)
      (startTime endTime : Option Int) (noReplace : Option Bool)
  | stop (guildId : String)
  | pause (guildId : String) (pauseState : Bool)
  | seek (guildId : String) (position : Int)
  | voiceUpdate (guildId : String) (sessionId token endpoint : String)
  | configureResuming (key : String) (timeout : Nat)
deriving DecidableEq, Repr

/-- JavaScript truthiness of an optional number: `undefined` and `0` are
falsy, every other value is truthy. -/
def jsTruthyNat : Option Nat → Bool
  | none => false
  | some v => v != 0

/-- The optional-chaining read `this.ws?.OPEN`: `undefined` when the
handle is `null`, otherwise the class constant `WebSocket.OPEN`.  Note
that this reads the constant, not the per-instance `readyState`. -/
def Node.wsOPEN (n : Node) : Option Nat :=
  n.ws.map fun _ => WS.OPEN

/-- Embeds `Node.send`:
`if (this.state !== State.CONNECTED || !this.ws?.OPEN) return;`
then `this.ws.send(JSON.stringify(payload))`.  The returned value is the
transport write performed, `none` when the payload is silently dropped. -/
def Node.send (n : Node) (payload : Payload) : Option Payload :=
  if n.state = NodeState.CONNECTED ∧ jsTruthyNat n.wsOPEN = true then
    some payload
  else
    none

/-- Definition following the words of the spec (for comparison with the
code): the transport `reports itself open` exactly when a handle exists
and its `readyState` equals `WebSocket.OPEN`. -/
def Node.transportOpen (n : Node) : Bool :=
  match n.ws with
  | none => false
  | some w => w.readyState == WS.OPEN

/-- Notifications delivered to the event sink. -/
inductive NodeEvent
  | nodeConnect
  | nodeDisconnect
  | nodeResume
  | nodeError (message : String)
  | raw
deriving DecidableEq, Repr

/-- A transport close event as delivered to the close handler. -/
structure CloseEvent where
  code : Nat
  reason : String
  wasClean : Bool
deriving DecidableEq, Repr

/-- The message of the abnormal-close error notification. -/
def closeErrorMessage (code : Nat) (reason : String) : String :=
  "WebSocket closed abnormally with code " ++ toString code ++ ": " ++ reason

/-- Result of running the close handler: the updated Node, the events
emitted to the sink, and the delay of the scheduled reconnect when one
was scheduled (`setTimeout(() => this.connect(), delay)`). -/
structure CloseResult where
  node : Node
  events : List NodeEvent
  reconnectDelay : Option Nat
deriving DecidableEq, Repr

/-- Embeds the close handler `Node.close({code, reason, wasClean})`:
state becomes DISCONNECTED and the handle is discarded; a clean close
emits `nodeDisconnect` and stops; an unclean close emits `nodeError`
with the close code and reason, then schedules `connect()` after
`retryAttemptsInterval ?? 5000` ms iff
`retryAttempts < (maxRetryAttempts ?? 10)`. -/
def Node.close (n : Node) (ev : CloseEvent) : CloseResult :=
  let n1 : Node := { n with state := NodeState.DISCONNECTED, ws := none }
  if ev.wasClean then
    { node := n1, events := [NodeEvent.nodeDisconnect], reconnectDelay := none }
  else if n.retryAttempts < ((n.options.maxRetryAttempts.getD 10 : Nat) : Int) then
    { node := n1
      events := [NodeEvent.nodeError (closeErrorMessage ev.code ev.reason)]
      reconnectDelay := some (n.options.retryAttemptsInterval.getD 5000) }
  else
    { node := n1
      events := [NodeEvent.nodeError (closeErrorMessage ev.code ev.reason)]
      reconnectDelay := none }

/-- Embeds `Node.connect`: no-op unless DISCONNECTED; otherwise
pre-increments the retry counter, moves to CONNECTING and installs a
freshly created transport handle (passed explicitly, since the embedding
is pure). -/
def Node.connect (n : Node) (fresh : WS) : Node :=
  if n.state ≠ NodeState.DISCONNECTED then n
  else
    { n with
      retryAttempts := n.retryAttempts + 1
      state := NodeState.CONNECTING
      ws := some fresh }

/-- Embeds the open handler (`open` in the source; renamed because
`open` is a Lean keyword): state becomes CONNECTED, `nodeConnect` is
emitted, resume configuration may be sent, and the `resumed` flag is
deleted regardless of its value. -/
def Node.onOpen (n : Node) : Node :=
  { n with state := NodeState.CONNECTED, resumed := none }

/-- Embeds the one-shot upgrade handler: when the handshake response
carries `session-resumed: true`, set the `resumed` flag and emit
`nodeResume`; otherwise leave the Node unchanged. -/
def Node.onUpgrade (n : Node) (sessionResumedHeader : Bool) : Node :=
  if sessionResumedHeader then { n with resumed := some true } else n

/-- The operations and event handlers of a Node, as state transformers.
`disconnect` only requests a transport close (`this.ws.close(1000, ...)`),
the field changes happen later in the close handler; `send`, the message
handler and the error handler never change Node fields. -/
inductive NodeOp
  | connect (fresh : WS)
  | disconnect
  | send (payload : Payload)
  | onOpen
  | onMessage
  | onError
  | onClose (ev : CloseEvent)
  | onUpgrade (sessionResumedHeader : Bool)
deriving DecidableEq, Repr

/-- Applies one Node operation to the Node state (projecting away the
emitted events and transport effects). -/
def Node.applyOp (n : Node) : NodeOp → Node
  | NodeOp.connect fresh => n.connect fresh
  | NodeOp.disconnect => n
  | NodeOp.send _ => n
  | NodeOp.onOpen => n.onOpen
  | NodeOp.onMessage => n
  | NodeOp.onError => n
  | NodeOp.onClose ev => (n.close ev).node
  | NodeOp.onUpgrade h => n.onUpgrade h

/-- One connect attempt followed by a close of the resulting transport:
the shape of every reconnection cycle. -/
def Node.round (ev : CloseEvent) (fresh : WS) (n : Node) : Node :=
  ((n.connect fresh).close ev).node

/-- Node state after `k` full connect/close rounds starting from a
freshly constructed Node. -/
def nodeAfterRounds (opts : NodeOptions) (ev : CloseEvent) (fresh : WS)
    (k : Nat) : Node :=
  (Node.round ev fresh)^[k] (newNode opts)

/-- The close handler run after the `(j+1)`-th connection attempt (the
attempt made from the state reached after `j` complete rounds). -/
def attemptClose (opts : NodeOptions) (ev : CloseEvent) (fresh : WS)
    (j : Nat) : CloseResult :=
  ((nodeAfterRounds opts ev fresh j).connect fresh).close ev

/-- A track: opaque encoded payload plus a duration (the only fields the
embedded session code reads). -/
structure Track where
  encodedTrack : String
  duration : Int
deriving DecidableEq, Repr

/-- Voice-session credentials supplied by the external voice gateway. -/
structure VoiceCreds where
  sessionId : String
  token : String
  endpoint : String
deriving DecidableEq, Repr

/-- Transport state of a Session (the enum `State` in the Player module:
DISCONNECTED, CONNECTING, CONNECTED). -/
inductive Player.State
  | DISCONNECTED
  | CONNECTING
  | CONNECTED
deriving DecidableEq, Repr

/-- Options for creating a Session (`PlayerOptions`). -/
structure PlayerOptions where
  guildId : String
  voiceChannelId : String
  textChannelId : Option String
  selfDeaf : Option Bool
  selfMute : Option Bool
deriving DecidableEq, Repr

/-- One Session (Player).  `node` is `none` when neither a `null` nor a
connected Node reference is held (in particular when selection at
creation found no CONNECTED node and produced `undefined`).  The empty
voice-state object `{}` is modelled as `none`. -/
structure Player where
  guildId : String
  voiceChannelId : String
  textChannelId : Option String
  selfDeaf : Bool
  selfMute : Bool
  current : Option Track
  queue : List Track
  queueRepeat : Bool
  trackRepeat : Bool
  position : Int
  positionTimestamp : Int
  playing : Bool
  paused : Bool
  node : Option Node
  state : Player.State
  voiceState : Option VoiceCreds
  moving : Bool
deriving DecidableEq, Repr

/-- The sort key used at node selection: the JavaScript comparator
`(a, b) => a.stats.players - b.stats.players` orders `a` no later than
`b` exactly when `a.stats.players ≤ b.stats.players`. -/
def nodeSortLE (a b : Node) : Bool :=
  a.stats.players ≤ b.stats.players

/-- Embeds the node-selection expression of the Player constructor:
`this.vulkava.nodes.filter(n => n.state === NodeState.CONNECTED)
  .sort((a, b) => a.stats.players - b.stats.players)[0]`.
JavaScript `Array.prototype.sort` is a stable sort, modelled by
`List.mergeSort`; indexing an empty array at 0 yields `undefined`,
modelled by `head?` returning `none`. -/
def selectNode (nodes : List Node) : Option Node :=
  ((nodes.filter fun n => n.state = NodeState.CONNECTED).mergeSort
    nodeSortLE).head?

/-- The Player constructor over the registry of configured nodes.  The
`moving` flag is declared but never initialized in the source
(`undefined`, falsy), modelled as `false`. -/
def newPlayer (nodes : List Node) (o : PlayerOptions) : Player :=
  { guildId := o.guildId
    voiceChannelId := o.voiceChannelId
    textChannelId := o.textChannelId
    selfDeaf := o.selfDeaf.getD false
    selfMute := o.selfMute.getD false
    current := none
    queue := []
    queueRepeat := false
    trackRepeat := false
    position := 0
    positionTimestamp := 0
    playing := false
    paused := false
    node := selectNode nodes
    state := Player.State.DISCONNECTED
    voiceState := none
    moving := false }

/-- Embeds the getter `exactPosition`:
`this.position + (Date.now() - this.positionTimestamp)`, with the
ambient clock `Date.now()` passed explicitly. -/
def Player.exactPosition (p : Player) (now : Int) : Int :=
  p.position + (now - p.positionTimestamp)

/-- A playback-status report from the Node (the `PlayerState` argument
of `updatePlayer`): an optional position and a connected flag. -/
structure PlayerReport where
  position : Option Int
  connected : Bool
deriving DecidableEq, Repr

/-- Embeds `Player.updatePlayer(state)`.  The position guard is the
JavaScript truthiness test `if (state.position)`: an absent position and
a position of exactly 0 are both falsy and leave `position` unchanged.
No field other than `position` and `state` is written; in particular
`positionTimestamp` is not touched. -/
def Player.updatePlayer (p : Player) (report : PlayerReport) : Player :=
  let p1 :=
    match report.position with
    | some v => if v ≠ 0 then { p with position := v } else p
    | none => p
  if report.connected then
    if p1.state ≠ Player.State.CONNECTED then
      { p1 with state := Player.State.CONNECTED }
    else p1
  else
    if p1.state ≠ Player.State.DISCONNECTED then
      { p1 with state := Player.State.DISCONNECTED }
    else p1

/-- Observable actions of a Session operation, in program order:
invocations of `Node.send` on a target Node, writes of the `moving`
flag, and writes of the transport state. -/
inductive PAction
  | send (target : Node) (payload : Payload)
  | setMoving (moving : Bool)
  | setState (s : Player.State)
deriving DecidableEq, Repr

/-- Synchronous failures of Session operations.  The `typeError`
variants are JavaScript `TypeError`s raised by dereferencing an absent
value, not explicit `throw` statements. -/
inductive PlayerErr
  | targetNodeAbsent
  | targetNodeNotConnected
  | queueEmpty
  | typeErrorOldNodeAbsent
  | typeErrorNodeAbsent
  | typeErrorCurrentAbsent
deriving DecidableEq, Repr

/-- Result of a Session operation: the state after all field writes that
executed before the operation returned or raised, the trace of
observable actions, and the failure if one was raised. -/
structure PResult where
  player : Player
  actions : List PAction
  error : Option PlayerErr
deriving DecidableEq, Repr

/-- Embeds `Player.moveNode(node)`.  Guard order follows the source:
absent target, then target not CONNECTED, then same-node no-op.  In the
migration path the old Node receives a destroy command, the reference is
reassigned, the voice update is resent when voice credentials exist
(`Object.keys(this.voiceState).length`), and a play command with
`startTime: this.position` goes to the new Node when
`this.playing && this.current`; only the non-playing branch clears
`moving`. -/
def Player.moveNode (p : Player) (target : Option Node) : PResult :=
  match target with
  | none => { player := p, actions := [], error := some PlayerErr.targetNodeAbsent }
  | some node =>
    if node.state ≠ NodeState.CONNECTED then
      { player := p, actions := [], error := some PlayerErr.targetNodeNotConnected }
    else if p.node = some node then
      { player := p, actions := [], error := none }
    else
      match p.node with
      | none =>
        { player := { p with moving := true }
          actions := [PAction.setMoving true]
          error := some PlayerErr.typeErrorOldNodeAbsent }
      | some old =>
        let p1 : Player := { p with moving := true, node := some node }
        let tr1 : List PAction :=
          [PAction.setMoving true, PAction.send old (Payload.destroy p.guildId)]
        let p2 : Player :=
          match p.voiceState with
          | some _ => { p1 with state := Player.State.CONNECTED }
          | none => p1
        let tr2 : List PAction :=
          match p.voiceState with
          | some vs =>
            tr1 ++
              [PAction.setState Player.State.CONNECTING,
               PAction.send node
                 (Payload.voiceUpdate p.guildId vs.sessionId vs.token vs.endpoint),
               PAction.setState Player.State.CONNECTED]
          | none => tr1
        if p.playing then
          match p.current with
          | some t =>
            { player := p2
              actions := tr2 ++
                [PAction.send node
                  (Payload.play p.guildId (some t.encodedTrack)
                    (some p.position) none none)]
              error := none }
          | none =>
            { player := { p2 with moving := false }
              actions := tr2 ++ [PAction.setMoving false]
              error := none }
        else
          { player := { p2 with moving := false }
            actions := tr2 ++ [PAction.setMoving false]
            error := none }

/-- Caller-supplied play options (`PlayOptions`); absent entries are not
spread into the payload. -/
structure PlayOptions where
  startTime : Option Int
  endTime : Option Int
  noReplace : Option Bool
deriving DecidableEq, Repr

/-- Embeds `Player.play(options?)`.  The guard `if (this.node === null)`
never fires: the only reachable no-node value is `undefined` (the
constructor indexes an empty array when no Node is CONNECTED) and
nothing ever assigns `null`, so `none` slips past the strict-equality
test.  The empty-queue guard is
`!this.current && !this.trackRepeat && !this.queue.length`.  Track
selection assigns `this.queue.shift()`; shifting an empty queue yields
`undefined` (`current` becomes `none`).  The send evaluates the member
access `this.node.send` before the argument object, so with no Node
assigned a `TypeError` is raised there — after the `current`/`queue`
mutations and before `this.current.encodedTrack` is read; with a Node
assigned but no current track the `TypeError` is raised at the
`this.current.encodedTrack` dereference instead, and no write is
invoked. -/
def Player.play (p : Player) (opts : PlayOptions) : PResult :=
  if p.current = none ∧ p.trackRepeat = false ∧ p.queue = [] then
    { player := p, actions := [], error := some PlayerErr.queueEmpty }
  else
    let advance : Bool :=
      match p.current with
      | none => true
      | some _ => !p.trackRepeat
    let p1 : Player :=
      if advance then { p with current := p.queue.head?, queue := p.queue.tail }
      else p
    match p.node with
    | none =>
      { player := p1, actions := [], error := some PlayerErr.typeErrorNodeAbsent }
    | some nd =>
      match p1.current with
      | none =>
        { player := p1, actions := [], error := some PlayerErr.typeErrorCurrentAbsent }
      | some t =>
        { player := p1
          actions :=
            [PAction.send nd
              (Payload.play p.guildId (some t.encodedTrack)
                opts.startTime opts.endTime opts.noReplace)]
          error := none }

theorem nodeSortLE_trans (a b c : Node) (h1 : nodeSortLE a b) (h2 : nodeSortLE b c) :
    nodeSortLE a c := by
  simp only [nodeSortLE, decide_eq_true_eq] at *
  omega

theorem nodeSortLE_total (a b : Node) : nodeSortLE a b || nodeSortLE b a := by
  simp only [nodeSortLE, Bool.or_eq_true, decide_eq_true_eq]
  omega

/-- Head of the stable sort of a nonempty list: it is an element whose
sort key is minimal, taken at its first occurrence, so every element
strictly before it in the input has a strictly larger key. -/
theorem mergeSort_head_first_argmin (c : List Node) (hne : c ≠ []) :
    ∃ r l1 l2, (c.mergeSort nodeSortLE).head? = some r ∧
      c = l1 ++ r :: l2 ∧
      (∀ m ∈ l1, r.stats.players < m.stats.players) ∧
      (∀ m ∈ c, r.stats.players ≤ m.stats.players) := by
  induction c with
  | nil => exact absurd rfl hne
  | cons a l ih =>
    obtain ⟨s1, s2, h1, h2, h3⟩ :=
      List.mergeSort_cons nodeSortLE_trans nodeSortLE_total a l
    have hsorted := List.sorted_mergeSort nodeSortLE_trans nodeSortLE_total (a :: l)
    cases s1 with
    | nil =>
      refine ⟨a, [], l, ?_, rfl, by simp, ?_⟩
      · rw [h1]; rfl
      · intro m hm
        have hmem : m ∈ (a :: l).mergeSort nodeSortLE := List.mem_mergeSort.mpr hm
        rw [h1] at hmem hsorted
        simp only [List.nil_append] at hmem hsorted
        rcases List.mem_cons.mp hmem with h | h
        · subst h; exact Nat.le_refl _
        · have := (List.pairwise_cons.mp hsorted).1 m h
          simpa [nodeSortLE] using this
    | cons r s1t =>
      have hl : l ≠ [] := by
        intro h
        subst h
        simp [List.mergeSort] at h2
      obtain ⟨r0, l1, l2, hh, hdec, hpre, hmin⟩ := ih hl
      have hr0 : r0 = r := by
        rw [h2] at hh
        simp only [List.cons_append, List.head?_cons, Option.some.injEq] at hh
        exact hh.symm
      subst hr0
      have hra : r0.stats.players < a.stats.players := by
        have := h3 r0 (List.mem_cons_self _ _)
        simpa [nodeSortLE, Nat.lt_iff_add_one_le] using this
      refine ⟨r0, a :: l1, l2, ?_, by rw [hdec]; rfl, ?_, ?_⟩
      · rw [h1]
        simp
      · intro m hm
        rcases List.mem_cons.mp hm with h | h
        · subst h; exact hra
        · exact hpre m h
      · intro m hm
        rcases List.mem_cons.mp hm with h | h
        · subst h; exact Nat.le_of_lt hra
        · exact hmin m h

/-- C1: at Session (Player) creation the assigned Node is the selection
result, which is the Node with the minimum load statistic
(`stats.players`) among the Nodes currently CONNECTED, ties broken by
configuration order (the selected Node occurs in the connected sublist
with every earlier connected Node carrying a strictly larger load); and
whenever no Node is CONNECTED the selection yields no node (the Session
holds no Node reference), never an arbitrary or disconnected Node. -/
theorem selectNode_min_connected (nodes : List Node) (o : PlayerOptions) :
    (newPlayer nodes o).node = selectNode nodes ∧
    (selectNode nodes = none ↔ ∀ n ∈ nodes, n.state ≠ NodeState.CONNECTED) ∧
    (∀ r, selectNode nodes = some r →
      r ∈ nodes ∧ r.state = NodeState.CONNECTED ∧
      (∀ m ∈ nodes, m.state = NodeState.CONNECTED →
        r.stats.players ≤ m.stats.players) ∧
      ∃ l1 l2,
        nodes.filter (fun n => n.state = NodeState.CONNECTED) = l1 ++ r :: l2 ∧
        ∀ m ∈ l1, r.stats.players < m.stats.players) := by
  have hperm :=
    List.mergeSort_perm (nodes.filter fun n => n.state = NodeState.CONNECTED)
      nodeSortLE
  refine ⟨rfl, ?_, ?_⟩
  · rw [selectNode, List.head?_eq_none_iff]
    constructor
    · intro h n hn hc
      have : n ∈ (nodes.filter fun n => n.state = NodeState.CONNECTED).mergeSort
          nodeSortLE := by
        rw [List.mem_mergeSort, List.mem_filter]
        exact ⟨hn, by simp [hc]⟩
      rw [h] at this
      cases this
    · intro h
      have hfil : nodes.filter (fun n => n.state = NodeState.CONNECTED) = [] := by
        rw [List.filter_eq_nil_iff]
        intro n hn
        simp [h n hn]
      rw [hfil, List.mergeSort_nil]
  · intro r hr
    have hne : nodes.filter (fun n => n.state = NodeState.CONNECTED) ≠ [] := by
      intro h
      rw [selectNode, h, List.mergeSort_nil] at hr
      cases hr
    obtain ⟨r0, l1, l2, hh, hdec, hpre, hmin⟩ :=
      mergeSort_head_first_argmin _ hne
    have hr0 : r0 = r := by
      rw [selectNode] at hr
      rw [hr] at hh
      exact (Option.some.injEq _ _ ▸ hh).symm
    subst hr0
    have hrf : r0 ∈ nodes.filter fun n => n.state = NodeState.CONNECTED := by
      rw [hdec]
      exact List.mem_append_right _ (List.mem_cons_self _ _)
    have hrmem := List.mem_filter.mp hrf
    refine ⟨hrmem.1, by simpa using hrmem.2, ?_, l1, l2, hdec, hpre⟩
    intro m hm hmc
    exact hmin m (List.mem_filter.mpr ⟨hm, by simp [hmc]⟩)

/-- Concrete configuration used by the witnesses. -/
def demoOptions (name : String) : NodeOptions :=
  { id := some name
    hostname := name
    port := 2333
    secure := none
    password := "pw"
    resumeKey := none
    resumeTimeout := none
    maxRetryAttempts := none
    retryAttemptsInterval := none }

/-- A concrete Node with a given state and load, used by the witnesses. -/
def demoNode (name : String) (st : NodeState) (load : Nat) : Node :=
  { retryAttempts := -1
    state := st
    ws := none
    resumed := none
    options := demoOptions name
    stats := { players := load } }

/-- The three-node registry of the verification example in the spec:
loads 5, 2 and 8, with only the first and third Nodes CONNECTED. -/
def demoNodes : List Node :=
  [demoNode "n1" NodeState.CONNECTED 5,
   demoNode "n2" NodeState.DISCONNECTED 2,
   demoNode "n3" NodeState.CONNECTED 8]

/-- Concrete Session options used by the witnesses. -/
def demoPlayerOptions : PlayerOptions :=
  { guildId := "guild"
    voiceChannelId := "voice"
    textChannelId := none
    selfDeaf := none
    selfMute := none }

theorem selectNode_min_connected_witness :
    (newPlayer demoNodes demoPlayerOptions).node = selectNode demoNodes ∧
    selectNode demoNodes = some (demoNode "n1" NodeState.CONNECTED 5) ∧
    (demoNode "n1" NodeState.CONNECTED 5).stats.players ≤
      (demoNode "n3" NodeState.CONNECTED 8).stats.players := by
  have hsel : selectNode demoNodes = some (demoNode "n1" NodeState.CONNECTED 5) := by
    simp [selectNode, demoNodes, List.mergeSort, nodeSortLE, demoNode, demoOptions]
  have h := selectNode_min_connected demoNodes demoPlayerOptions
  refine ⟨h.1, hsel, ?_⟩
  exact (h.2.2 _ hsel).2.2.1 _ (by simp [demoNodes]) rfl

/-- A concrete Session with every field at its constructor value and no
Node assigned, used as the base of witnesses and counterexamples. -/
def demoPlayer : Player :=
  { guildId := "guild"
    voiceChannelId := "voice"
    textChannelId := none
    selfDeaf := false
    selfMute := false
    current := none
    queue := []
    queueRepeat := false
    trackRepeat := false
    position := 0
    positionTimestamp := 0
    playing := false
    paused := false
    node := none
    state := Player.State.DISCONNECTED
    voiceState := none
    moving := false }

/-- C2 counterexample: a report that carries the position 0 does not set
the Session position to that value — the guard `if (state.position)` is
a truthiness test, so position 0 is discarded and the old position 50 is
kept, contradicting the claim that a carried position is always
applied. -/
theorem updatePlayer_zero_position_cex :
    (Player.updatePlayer { demoPlayer with position := 50 }
      { position := some 0, connected := true }).position = 50 ∧
    (50 : Int) ≠ 0 := by
  constructor
  · rfl
  · decide

/-- C2 (amended): for every `updatePlayer(state)` call, when the report
carries a nonzero position the Session position is set to that value,
while an absent or zero position leaves it unchanged;
`positionTimestamp` is never modified by `updatePlayer`; and the
transport state moves to CONNECTED exactly when the report says
connected and it was not already CONNECTED, and to DISCONNECTED exactly
when the report says not connected and it was not already DISCONNECTED
(so the final state is CONNECTED iff the report says connected). -/
theorem updatePlayer_spec (p : Player) (report : PlayerReport) :
    (∀ v, report.position = some v → v ≠ 0 →
      (p.updatePlayer report).position = v) ∧
    ((report.position = none ∨ report.position = some 0) →
      (p.updatePlayer report).position = p.position) ∧
    (p.updatePlayer report).positionTimestamp = p.positionTimestamp ∧
    (p.updatePlayer report).state =
      (if report.connected then Player.State.CONNECTED
       else Player.State.DISCONNECTED) := by
  obtain ⟨pos, conn⟩ := report
  simp only [Player.updatePlayer]
  cases pos with
  | none => cases conn <;> split_ifs <;> simp_all
  | some v =>
    by_cases hv : v = 0 <;> cases conn <;> subst_eqs <;> split_ifs <;> simp_all

theorem updatePlayer_spec_witness :
    (Player.updatePlayer
      { demoPlayer with positionTimestamp := 7, state := Player.State.CONNECTING }
      { position := some 100, connected := true }).position = 100 ∧
    (Player.updatePlayer
      { demoPlayer with positionTimestamp := 7, state := Player.State.CONNECTING }
      { position := some 100, connected := true }).positionTimestamp = 7 ∧
    (Player.updatePlayer
      { demoPlayer with positionTimestamp := 7, state := Player.State.CONNECTING }
      { position := some 100, connected := true }).state =
      Player.State.CONNECTED := by
  have h := updatePlayer_spec
    { demoPlayer with positionTimestamp := 7, state := Player.State.CONNECTING }
    { position := some 100, connected := true }
  exact ⟨h.1 100 rfl (by decide), by simpa using h.2.2.1, by simpa using h.2.2.2⟩

/-- C3: in the close handler the state becomes DISCONNECTED and the
transport handle is discarded in every case; after a clean close a
disconnect notification is emitted and no reconnect is ever scheduled;
after an unclean close a node-error notification describing the close
code and reason is emitted, and a delayed `connect()` (after
`retryAttemptsInterval`, default 5000 ms) is scheduled iff the retry
counter is below `maxRetryAttempts` (default 10). -/
theorem node_close_spec (n : Node) (ev : CloseEvent) :
    (n.close ev).node = { n with state := NodeState.DISCONNECTED, ws := none } ∧
    (ev.wasClean = true →
      (n.close ev).events = [NodeEvent.nodeDisconnect] ∧
      (n.close ev).reconnectDelay = none) ∧
    (ev.wasClean = false →
      (n.close ev).events =
        [NodeEvent.nodeError (closeErrorMessage ev.code ev.reason)] ∧
      (n.close ev).reconnectDelay =
        (if n.retryAttempts < ((n.options.maxRetryAttempts.getD 10 : Nat) : Int)
         then some (n.options.retryAttemptsInterval.getD 5000)
         else none)) := by
  obtain ⟨code, reason, wasClean⟩ := ev
  simp only [Node.close]
  cases wasClean <;> split_ifs <;> simp_all

theorem node_close_spec_witness :
    ((demoNode "a" NodeState.CONNECTED 0).close
      { code := 1006, reason := "abnormal", wasClean := false }).reconnectDelay =
      some 5000 ∧
    ((demoNode "a" NodeState.CONNECTED 0).close
      { code := 1000, reason := "bye", wasClean := true }).reconnectDelay = none ∧
    ((demoNode "a" NodeState.CONNECTED 0).close
      { code := 1000, reason := "bye", wasClean := true }).events =
      [NodeEvent.nodeDisconnect] := by
  have h1 := node_close_spec (demoNode "a" NodeState.CONNECTED 0)
    { code := 1006, reason := "abnormal", wasClean := false }
  have h2 := node_close_spec (demoNode "a" NodeState.CONNECTED 0)
    { code := 1000, reason := "bye", wasClean := true }
  refine ⟨?_, (h2.2.1 rfl).2, (h2.2.1 rfl).1⟩
  have := (h1.2.2 rfl).2
  simpa [demoNode, demoOptions] using this

/-- Recognizes a play command in an action trace. -/
def isPlayCmd : PAction → Bool
  | PAction.send _ (Payload.play _ _ _ _ _) => true
  | _ => false

/-- C4: `moveNode(target)` fails when `target` is absent or not
CONNECTED, and is a no-op when `target` is already the current Node;
otherwise it sets the `moving` flag first, sends a destroy command for
this guild to the old Node, reassigns the Node reference to `target`,
resends the voice update to the new Node when voice credentials are
established, and, when the Session is playing a current track, ends with
a play command to the new Node whose `startTime` equals the position
recorded at migration time, with the `moving` flag never set to false
before (indeed at no point after) that play command within the call;
without a playing current track the call ends by clearing `moving`
without issuing any play command. -/
theorem moveNode_spec (p : Player) (target : Option Node) :
    (target = none →
      p.moveNode target =
        { player := p, actions := [], error := some PlayerErr.targetNodeAbsent }) ∧
    (∀ nd, target = some nd → nd.state ≠ NodeState.CONNECTED →
      p.moveNode target =
        { player := p, actions := [],
          error := some PlayerErr.targetNodeNotConnected }) ∧
    (∀ nd, target = some nd → nd.state = NodeState.CONNECTED →
      p.node = some nd →
      p.moveNode target = { player := p, actions := [], error := none }) ∧
    (∀ nd old, target = some nd → nd.state = NodeState.CONNECTED →
      p.node = some old → p.node ≠ target →
      (p.moveNode target).error = none ∧
      (p.moveNode target).player.node = some nd ∧
      (p.moveNode target).actions.head? = some (PAction.setMoving true) ∧
      PAction.send old (Payload.destroy p.guildId) ∈ (p.moveNode target).actions ∧
      (∀ vs, p.voiceState = some vs →
        PAction.send nd
          (Payload.voiceUpdate p.guildId vs.sessionId vs.token vs.endpoint) ∈
          (p.moveNode target).actions) ∧
      (∀ t, p.playing = true → p.current = some t →
        (p.moveNode target).actions.getLast? =
          some (PAction.send nd
            (Payload.play p.guildId (some t.encodedTrack)
              (some p.position) none none)) ∧
        PAction.setMoving false ∉ (p.moveNode target).actions ∧
        (p.moveNode target).player.moving = true) ∧
      ((p.playing = false ∨ p.current = none) →
        (p.moveNode target).actions.getLast? = some (PAction.setMoving false) ∧
        (p.moveNode target).player.moving = false ∧
        ∀ a ∈ (p.moveNode target).actions, isPlayCmd a = false)) := by
  refine ⟨?_, ?_, ?_, ?_⟩
  · rintro rfl
    rfl
  · rintro nd rfl hns
    simp [Player.moveNode, hns]
  · rintro nd rfl hc hsame
    simp [Player.moveNode, hc, hsame]
  · rintro nd old rfl hc hold hne
    rcases hvs : p.voiceState with _ | vs <;>
      cases hpl : p.playing <;>
        rcases hcu : p.current with _ | t <;>
          simp_all [Player.moveNode, isPlayCmd]

/-- A concrete track used by the witnesses. -/
def demoTrack : Track := { encodedTrack := "encA", duration := 1000 }

/-- A second concrete track used by the witnesses. -/
def demoTrackB : Track := { encodedTrack := "encB", duration := 2000 }

/-- Concrete voice credentials used by the witnesses. -/
def demoCreds : VoiceCreds :=
  { sessionId := "sess", token := "tok", endpoint := "ep" }

/-- A concrete migrating Session: bound to an old Node, actively playing
a current track at position 42, with voice credentials established. -/
def demoMovePlayer : Player :=
  { demoPlayer with
    node := some (demoNode "old" NodeState.CONNECTED 1)
    playing := true
    current := some demoTrack
    position := 42
    voiceState := some demoCreds }

theorem moveNode_spec_witness :
    (demoMovePlayer.moveNode (some (demoNode "new" NodeState.CONNECTED 0))).error =
      none ∧
    (demoMovePlayer.moveNode
      (some (demoNode "new" NodeState.CONNECTED 0))).player.node =
      some (demoNode "new" NodeState.CONNECTED 0) ∧
    (demoMovePlayer.moveNode
      (some (demoNode "new" NodeState.CONNECTED 0))).actions.getLast? =
      some (PAction.send (demoNode "new" NodeState.CONNECTED 0)
        (Payload.play "guild" (some "encA") (some 42) none none)) ∧
    (demoMovePlayer.moveNode
      (some (demoNode "new" NodeState.CONNECTED 0))).player.moving = true := by
  have h := (moveNode_spec demoMovePlayer
    (some (demoNode "new" NodeState.CONNECTED 0))).2.2.2
    (demoNode "new" NodeState.CONNECTED 0) (demoNode "old" NodeState.CONNECTED 1)
    rfl rfl rfl (by decide)
  obtain ⟨he, hn, _, _, _, hp, _⟩ := h
  obtain ⟨hlast, _, hmov⟩ := hp demoTrack rfl rfl
  refine ⟨he, hn, ?_, hmov⟩
  simpa [demoMovePlayer, demoPlayer, demoTrack] using hlast

/-- C5: the claim says `send` writes iff the state is CONNECTED and the
transport reports itself open, and in particular drops the payload when
the state is CONNECTED but the transport is not open.  The code instead
tests `!this.ws?.OPEN`, reading the class constant `WebSocket.OPEN`
(always 1, hence truthy, on any non-null handle) rather than the
per-instance `readyState`; at the concrete input below the state is
CONNECTED and the handle exists but its `readyState` is 2 (CLOSING), so
the transport does not report itself open, yet the write happens. -/
theorem node_send_writes_when_not_open :
    (({ demoNode "a" NodeState.CONNECTED 0 with
        ws := some { readyState := 2 } }).send (Payload.stop "guild")).isSome =
      true ∧
    ({ demoNode "a" NodeState.CONNECTED 0 with
        ws := some { readyState := 2 } } : Node).transportOpen = false ∧
    (({ demoNode "a" NodeState.DISCONNECTED 0 with
        ws := some { readyState := 1 } }).send (Payload.stop "guild")) = none := by
  exact ⟨rfl, rfl, rfl⟩

/-- C6: `play()` fails when no Node is assigned — the `=== null` guard
never fires on the reachable `undefined`, so the failure is either the
empty-queue error (whose guard runs first) or a `TypeError` at the
`this.node.send` dereference after the track-selection mutations, and in
both cases nothing is sent; `play()` fails with the empty-queue error
when there is no current track, track-repeat is disabled and the queue
is empty; whenever there is no current track, or there is a current
track but track-repeat is disabled, it dequeues the track at the front
of the queue and makes it the current track before sending the play
command; with track-repeat enabled and a current track present, the
current track and the queue are left unchanged. -/
theorem play_spec (p : Player) (opts : PlayOptions) :
    (p.node = none →
      ((p.play opts).error = some PlayerErr.queueEmpty ∨
       (p.play opts).error = some PlayerErr.typeErrorNodeAbsent) ∧
      (p.play opts).actions = []) ∧
    (p.current = none → p.trackRepeat = false → p.queue = [] →
      p.play opts =
        { player := p, actions := [], error := some PlayerErr.queueEmpty }) ∧
    (∀ nd t rest, p.node = some nd →
      (p.current = none ∨ (p.current ≠ none ∧ p.trackRepeat = false)) →
      p.queue = t :: rest →
      (p.play opts).player.current = some t ∧
      (p.play opts).player.queue = rest ∧
      (p.play opts).error = none ∧
      (p.play opts).actions =
        [PAction.send nd
          (Payload.play p.guildId (some t.encodedTrack)
            opts.startTime opts.endTime opts.noReplace)]) ∧
    (∀ nd t, p.node = some nd → p.current = some t → p.trackRepeat = true →
      (p.play opts).player.current = some t ∧
      (p.play opts).player.queue = p.queue ∧
      (p.play opts).error = none) := by
  refine ⟨?_, ?_, ?_, ?_⟩
  · intro h
    by_cases hg : p.current = none ∧ p.trackRepeat = false ∧ p.queue = []
    · simp [Player.play, hg]
    · simp [Player.play, hg, h]
  · intro hc hr hq
    simp [Player.play, hc, hr, hq]
  · rintro nd t rest hnd hsel hq
    rcases hsel with hc | ⟨hc, hr⟩
    · simp [Player.play, hnd, hc, hq]
    · rcases hcu : p.current with _ | cur
      · exact absurd hcu hc
      · simp [Player.play, hnd, hcu, hr, hq]
  · rintro nd t hnd hc hr
    simp [Player.play, hnd, hc, hr]

theorem play_spec_witness :
    (Player.play
      { demoPlayer with
        node := some (demoNode "n1" NodeState.CONNECTED 5)
        queue := [demoTrack, demoTrackB] }
      { startTime := none, endTime := none, noReplace := none }).player.current =
      some demoTrack ∧
    (Player.play
      { demoPlayer with
        node := some (demoNode "n1" NodeState.CONNECTED 5)
        queue := [demoTrack, demoTrackB] }
      { startTime := none, endTime := none, noReplace := none }).player.queue =
      [demoTrackB] ∧
    (Player.play
      { demoPlayer with
        node := some (demoNode "n1" NodeState.CONNECTED 5)
        queue := [demoTrack, demoTrackB] }
      { startTime := none, endTime := none, noReplace := none }).error = none := by
  have h := (play_spec
    { demoPlayer with
      node := some (demoNode "n1" NodeState.CONNECTED 5)
      queue := [demoTrack, demoTrackB] }
    { startTime := none, endTime := none, noReplace := none }).2.2.1
    (demoNode "n1" NodeState.CONNECTED 5) demoTrack [demoTrackB]
    rfl (Or.inl rfl) rfl
  exact ⟨h.1, h.2.1, h.2.2.1⟩

/-- C10: calling `play()` with a current track present, track-repeat
disabled and an empty queue does not raise the empty-queue precondition
error (its guard requires no current track); instead the current track
is replaced by the result of shifting the empty queue — no track — and
the subsequent dereference of its encoded payload raises a `TypeError`,
so no play command is sent. -/
theorem play_empty_queue_deref (p : Player) (opts : PlayOptions) (nd : Node)
    (hn : p.node = some nd) (hc : p.current ≠ none) (hr : p.trackRepeat = false)
    (hq : p.queue = []) :
    (p.play opts).error = some PlayerErr.typeErrorCurrentAbsent ∧
    (p.play opts).error ≠ some PlayerErr.queueEmpty ∧
    (p.play opts).player.current = none ∧
    (p.play opts).actions = [] := by
  rcases hcu : p.current with _ | cur
  · exact absurd hcu hc
  · simp [Player.play, hn, hcu, hr, hq]

theorem play_empty_queue_deref_witness :
    (Player.play
      { demoPlayer with
        node := some (demoNode "n1" NodeState.CONNECTED 5)
        current := some demoTrack
        queue := [] }
      { startTime := none, endTime := none, noReplace := none }).error =
      some PlayerErr.typeErrorCurrentAbsent ∧
    (Player.play
      { demoPlayer with
        node := some (demoNode "n1" NodeState.CONNECTED 5)
        current := some demoTrack
        queue := [] }
      { startTime := none, endTime := none, noReplace := none }).player.current =
      none := by
  have h := play_empty_queue_deref
    { demoPlayer with
      node := some (demoNode "n1" NodeState.CONNECTED 5)
      current := some demoTrack
      queue := [] }
    { startTime := none, endTime := none, noReplace := none }
    (demoNode "n1" NodeState.CONNECTED 5) rfl (by decide) rfl rfl
  exact ⟨h.1, h.2.2.1⟩

/-- C7 counterexample: a `connect()` call made while the Node is
CONNECTING (not DISCONNECTED) returns without touching the retry
counter: starting from `retryAttempts = 3` the counter is still 3
afterwards, not 4, so not every `connect()` call increases it by exactly
one. -/
theorem connect_no_increment_cex :
    (({ demoNode "a" NodeState.CONNECTING 7 with retryAttempts := 3 }).connect
      { readyState := 0 }).retryAttempts = 3 ∧
    (3 : Int) ≠ 3 + 1 := by
  constructor
  · rfl
  · decide

/-- C7 (amended): a `connect()` call made in state DISCONNECTED — the
only state from which a connection attempt proceeds — increases
`retryAttempts` by exactly one, and a call in any other state is a
complete no-op; across every Node operation the counter is monotone
non-decreasing, and the only operation that ever changes it is
`connect()`. -/
theorem node_retryAttempts_monotone (n : Node) :
    (∀ fresh, n.state = NodeState.DISCONNECTED →
      (n.connect fresh).retryAttempts = n.retryAttempts + 1) ∧
    (∀ fresh, n.state ≠ NodeState.DISCONNECTED → n.connect fresh = n) ∧
    (∀ op : NodeOp, n.retryAttempts ≤ (n.applyOp op).retryAttempts) ∧
    (∀ op : NodeOp, (n.applyOp op).retryAttempts ≠ n.retryAttempts →
      ∃ fresh, op = NodeOp.connect fresh) := by
  refine ⟨?_, ?_, ?_, ?_⟩
  · intro fresh hs
    simp [Node.connect, hs]
  · intro fresh hs
    simp [Node.connect, hs]
  · intro op
    cases op with
    | connect fresh =>
      by_cases hs : n.state = NodeState.DISCONNECTED <;>
        simp [Node.applyOp, Node.connect, hs]
    | onClose ev =>
      simp only [Node.applyOp, Node.close]
      split_ifs <;> simp
    | onUpgrade h =>
      by_cases hh : h = true <;> simp [Node.applyOp, Node.onUpgrade, hh]
    | _ => simp [Node.applyOp, Node.onOpen]
  · intro op hne
    cases op with
    | connect fresh => exact ⟨fresh, rfl⟩
    | onClose ev =>
      exfalso
      apply hne
      simp only [Node.applyOp, Node.close]
      split_ifs <;> simp
    | onUpgrade h =>
      exfalso
      apply hne
      by_cases hh : h = true <;> simp [Node.applyOp, Node.onUpgrade, hh]
    | _ => exact absurd rfl hne

theorem node_retryAttempts_monotone_witness :
    ((demoNode "a" NodeState.DISCONNECTED 0).connect
      { readyState := 0 }).retryAttempts =
      (demoNode "a" NodeState.DISCONNECTED 0).retryAttempts + 1 ∧
    (demoNode "a" NodeState.DISCONNECTED 0).retryAttempts ≤
      ((demoNode "a" NodeState.DISCONNECTED 0).applyOp
        (NodeOp.onClose { code := 1006, reason := "x", wasClean := false })).retryAttempts := by
  have h := node_retryAttempts_monotone (demoNode "a" NodeState.DISCONNECTED 0)
  exact ⟨h.1 { readyState := 0 } rfl,
    h.2.2.1 (NodeOp.onClose { code := 1006, reason := "x", wasClean := false })⟩

/-- C8: the derived read-only `exactPosition` equals
`position + (now − positionTimestamp)`, and with `position` and
`positionTimestamp` held fixed (no `updatePlayer` in between) it is
monotone non-decreasing in the wall clock: reads at times t1 ≤ t2
satisfy value(t1) ≤ value(t2). -/
theorem exactPosition_monotone (p : Player) (t1 t2 : Int) (h : t1 ≤ t2) :
    p.exactPosition t1 = p.position + (t1 - p.positionTimestamp) ∧
    p.exactPosition t1 ≤ p.exactPosition t2 := by
  refine ⟨rfl, ?_⟩
  simp only [Player.exactPosition]
  omega

theorem exactPosition_monotone_witness :
    ({ demoPlayer with position := 100, positionTimestamp := 10 } : Player).exactPosition 20 =
      110 ∧
    ({ demoPlayer with position := 100, positionTimestamp := 10 } : Player).exactPosition 20 ≤
      ({ demoPlayer with position := 100, positionTimestamp := 10 } : Player).exactPosition 30 := by
  have h := exactPosition_monotone
    { demoPlayer with position := 100, positionTimestamp := 10 } 20 30 (by decide)
  exact ⟨by decide, h.2⟩

/-- The close handler updates the Node fields the same way on every
branch: state DISCONNECTED, transport discarded. -/
theorem close_node_eq (n : Node) (ev : CloseEvent) :
    (n.close ev).node = { n with state := NodeState.DISCONNECTED, ws := none } := by
  simp only [Node.close]
  split_ifs <;> rfl

/-- After `k` complete connect/close rounds the retry counter equals
`k − 1`, the Node is DISCONNECTED again, and the configuration is
untouched. -/
theorem nodeAfterRounds_invariant (opts : NodeOptions) (ev : CloseEvent)
    (fresh : WS) (k : Nat) :
    (nodeAfterRounds opts ev fresh k).retryAttempts = (k : Int) - 1 ∧
    (nodeAfterRounds opts ev fresh k).state = NodeState.DISCONNECTED ∧
    (nodeAfterRounds opts ev fresh k).options = opts := by
  induction k with
  | zero =>
    refine ⟨?_, rfl, rfl⟩
    show (newNode opts).retryAttempts = ((0 : Nat) : Int) - 1
    simp [newNode]
  | succ k ih =>
    obtain ⟨h1, h2, h3⟩ := ih
    have hstep : nodeAfterRounds opts ev fresh (k + 1) =
        Node.round ev fresh (nodeAfterRounds opts ev fresh k) :=
      Function.iterate_succ_apply' (Node.round ev fresh) k (newNode opts)
    rw [hstep]
    have hc : (nodeAfterRounds opts ev fresh k).connect fresh =
        { nodeAfterRounds opts ev fresh k with
          retryAttempts := (nodeAfterRounds opts ev fresh k).retryAttempts + 1
          state := NodeState.CONNECTING
          ws := some fresh } := by
      simp [Node.connect, h2]
    rw [Node.round, close_node_eq, hc]
    refine ⟨?_, rfl, h3⟩
    simp only [h1]
    push_cast
    omega

/-- C9: a Node starts with `retryAttempts = −1` and pre-increments it,
so right after the N-th connection attempt the counter equals N − 1
(formulated below with N = j + 1: the attempt launched after j complete
rounds leaves the counter at j); consequently the unclean-close check
`retryAttempts < maxRetryAttempts` still schedules a reconnect after the
maxRetryAttempts-th attempt (counter maxRetryAttempts − 1), and stops
scheduling only after attempt maxRetryAttempts + 1, permitting up to
maxRetryAttempts + 1 total connection attempts. -/
theorem retry_budget_spec (opts : NodeOptions) (ev : CloseEvent) (fresh : WS)
    (hev : ev.wasClean = false) :
    (newNode opts).retryAttempts = -1 ∧
    (∀ j : Nat,
      ((nodeAfterRounds opts ev fresh j).connect fresh).retryAttempts = (j : Int)) ∧
    (∀ j : Nat,
      (attemptClose opts ev fresh j).reconnectDelay.isSome = true ↔
        (j : Int) < ((opts.maxRetryAttempts.getD 10 : Nat) : Int)) := by
  have hconn : ∀ j : Nat,
      ((nodeAfterRounds opts ev fresh j).connect fresh).retryAttempts = (j : Int) ∧
      ((nodeAfterRounds opts ev fresh j).connect fresh).options = opts := by
    intro j
    obtain ⟨h1, h2, h3⟩ := nodeAfterRounds_invariant opts ev fresh j
    constructor
    · simp only [Node.connect, h2]
      simp [h1]
    · simp only [Node.connect, h2]
      simp [h3]
  refine ⟨rfl, fun j => (hconn j).1, ?_⟩
  intro j
  obtain ⟨hr, ho⟩ := hconn j
  simp only [attemptClose, Node.close, hev, Bool.false_eq_true, if_false, hr, ho]
  split_ifs with hlt
  · simpa using hlt
  · simpa using hlt

theorem retry_budget_spec_witness :
    ((nodeAfterRounds (demoOptions "a") { code := 1006, reason := "x", wasClean := false }
      { readyState := 0 } 10).connect { readyState := 0 }).retryAttempts = 10 ∧
    (attemptClose (demoOptions "a") { code := 1006, reason := "x", wasClean := false }
      { readyState := 0 } 9).reconnectDelay.isSome = true ∧
    (attemptClose (demoOptions "a") { code := 1006, reason := "x", wasClean := false }
      { readyState := 0 } 10).reconnectDelay.isSome = false := by
  have h := retry_budget_spec (demoOptions "a")
    { code := 1006, reason := "x", wasClean := false } { readyState := 0 } rfl
  refine ⟨by simpa using h.2.1 10, ?_, ?_⟩
  · rw [h.2.2 9]
    simp [demoOptions]
  · have h10 := h.2.2 10
    have : ¬ ((attemptClose (demoOptions "a")
        { code := 1006, reason := "x", wasClean := false }
        { readyState := 0 } 10).reconnectDelay.isSome = true) := by
      rw [h10]
      simp [demoOptions]
    simpa using this
